import Mathlib

/-!
Shallow embedding of the monitoring-configuration and alert-evaluation core of
the health_check repository:

* `src/server/services/alerting.py`        — `TriggerEvaluator` (the only code
  path that creates `AlertEvent` rows during trigger evaluation),
* `src/server/services/expression_evaluator.py` — `ExpressionEvaluator`,
* `src/server/services/maintenance.py`     — `MaintenanceService.is_device_in_maintenance`,
* `src/server/services/template_resolver.py` — `TemplateResolver`,
* `src/server/api/alerts.py`               — message sanitization for the
  webhook ingestion path.

Modelling conventions: numeric metric values and thresholds are exact
rationals (`Rat`); Python float rendering in log/alert messages is abstracted
by `toString` on `Rat` (no proved claim depends on the rendering of a
number); timestamps are integer seconds (`Int`), so `datetime` subtraction
becomes integer subtraction; Python `dict` objects are association lists with
in-place update; nullable columns and Python `None` become `Option`; a Python
exception escaping a function is an `Except.error`.
-/

-- Decidable equality for `Except`, used to evaluate the embedded functions
-- at concrete inputs in witnesses and counterexamples.
deriving instance DecidableEq for Except

/-- Python regex `\s` over ASCII: space, tab, newline, carriage return,
vertical tab, form feed. -/
def isPyWs (c : Char) : Bool :=
  c = ' ' || c = '\t' || c = '\n' || c = '\r' || c = '\x0b' || c = '\x0c'

/-- Character class `[><=]` of the threshold regex in
`TriggerEvaluator.parse_threshold` (src/server/services/alerting.py line 62). -/
def isOpChar (c : Char) : Bool :=
  c = '>' || c = '<' || c = '='

/-- Character class `[><=!]` of the three expression patterns in
`ExpressionEvaluator.parse_simple_expression`. -/
def isOpBangChar (c : Char) : Bool :=
  c = '>' || c = '<' || c = '=' || c = '!'

/-- Character class `[\d.]`. -/
def isDigitDot (c : Char) : Bool :=
  c.isDigit || c = '.'

/-- Character class `\w` over ASCII. -/
def isWordChar (c : Char) : Bool :=
  c.isAlphanum || c = '_'

/-- Character class `[a-zA-Z_]`. -/
def isIdentStart (c : Char) : Bool :=
  c.isAlpha || c = '_'

/-- Greedy scan of a character class: the maximal matching run and the rest.
All the regexes embedded below alternate character classes that are disjoint
from what follows them, so greedy maximal-munch scanning is exactly the
backtracking regex semantics (justified pattern by pattern at each use). -/
def spanP (p : Char → Bool) (l : List Char) : List Char × List Char :=
  (l.takeWhile p, l.dropWhile p)

/-- Value of a nonempty digit string. -/
def digitsToNat (l : List Char) : Nat :=
  l.foldl (fun a c => 10 * a + (c.toNat - '0'.toNat)) 0

/-- Python `float(...)` applied to a string matched by `[\d.]+` (the only use
sites in the embedded code).  `none` models the `ValueError` that
`float` raises on inputs such as `"."` or `"1.2.3"`. -/
def pyFloat (s : String) : Option Rat :=
  let cs := s.data
  if cs.all isDigitDot = true ∧ cs.any Char.isDigit = true ∧
      (cs.filter (fun c => c = '.')).length ≤ 1 then
    let ip := cs.takeWhile Char.isDigit
    let fp := (cs.dropWhile (fun c => c ≠ '.')).drop 1
    some (mkRat (digitsToNat ip * 10 ^ fp.length + digitsToNat fp) (10 ^ fp.length))
  else none

/-- Python `str.strip()` (ASCII whitespace), as a character list. -/
def pyStrip (s : String) : List Char :=
  ((s.data.dropWhile isPyWs).reverse.dropWhile isPyWs).reverse

/-- Association-list lookup, modelling Python `dict.get`. -/
def assocGet {α : Type} (m : List (Nat × α)) (k : Nat) : Option α :=
  match m with
  | [] => none
  | p :: rest => if p.1 = k then some p.2 else assocGet rest k

/-- Association-list update, modelling Python `dict[k] = v`: replaces the
value in place when the key exists, appends otherwise (insertion order is
preserved, as for a Python dict). -/
def assocSet {α : Type} (m : List (Nat × α)) (k : Nat) (v : α) : List (Nat × α) :=
  match m with
  | [] => [(k, v)]
  | p :: rest => if p.1 = k then (k, v) :: rest else p :: assocSet rest k v

/-- String-keyed variant of `assocGet`. -/
def assocGetS {α : Type} (m : List (String × α)) (k : String) : Option α :=
  match m with
  | [] => none
  | p :: rest => if p.1 = k then some p.2 else assocGetS rest k

/-- String-keyed variant of `assocSet`. -/
def assocSetS {α : Type} (m : List (String × α)) (k : String) (v : α) : List (String × α) :=
  match m with
  | [] => [(k, v)]
  | p :: rest => if p.1 = k then (k, v) :: rest else p :: assocSetS rest k v

/-! ## Maintenance windows (src/server/services/maintenance.py) -/

/-- Row of the `maintenance_windows` table (the fields read by
`is_device_in_maintenance`). -/
structure MaintenanceWindow where
  active : Bool
  start_time : Int
  end_time : Int
  scope_type : String
  device_id : Option Nat
  hostgroup_id : Option Nat
deriving Repr, DecidableEq

/-- A device row together with the ids of the host groups it belongs to. -/
structure DeviceRow where
  id : Nat
  host_group_ids : List Nat
deriving Repr, DecidableEq

/-- `MaintenanceService.is_device_in_maintenance`
(src/server/services/maintenance.py lines 16-64): the device is looked up; if
absent the answer is `False`; otherwise an active window whose time range
contains `now` must cover the device via scope `all`, scope `device` with
matching id, or scope `hostgroup` with a host group the device belongs to. -/
def is_device_in_maintenance (devices : List DeviceRow)
    (windows : List MaintenanceWindow) (device_id : Nat) (now : Int) : Bool :=
  match devices.find? (fun d => d.id = device_id) with
  | none => false
  | some device =>
    windows.any (fun w =>
      w.active &&
      decide (w.start_time ≤ now) &&
      decide (w.end_time ≥ now) &&
      (w.scope_type = "all" ||
       (w.scope_type = "device" && w.device_id = some device_id) ||
       (w.scope_type = "hostgroup" &&
        (match w.hostgroup_id with
         | some h => device.host_group_ids.contains h
         | none => false))))

/-! ## TriggerEvaluator (src/server/services/alerting.py)

`TriggerEvaluator.evaluate_trigger` is the code that creates `AlertEvent`
rows during evaluation.  Its VictoriaMetrics query (`query_vm`) is external
I/O and is abstracted as an `Option Rat` argument (`None` when the backend
returns no data or the query fails). -/

/-- A trigger as read by the alerting service (id, name, expression). -/
structure ATrigger where
  id : Nat
  name : String
  expression : String
deriving Repr, DecidableEq

/-- An `alert_events` row as created by `TriggerEvaluator.evaluate_trigger`. -/
structure AlertEvent where
  trigger_id : Nat
  device_id : Option Nat
  status : String
  value : Option Rat
  message : String
deriving Repr, DecidableEq

/-- The in-memory evaluator state (`self.trigger_states`) plus the persisted
alert events (the single write path of the tick). -/
structure AlertingState where
  trigger_states : List (Nat × String)
  events : List AlertEvent
deriving Repr, DecidableEq

/-- The search for `([><=]+)\s*([\d.]+)\s*$` attempted at one start position.
The character classes `[><=]`, `\s`, `[\d.]` are pairwise disjoint and each
is followed by a class that cannot consume its characters, then by the `$`
anchor, so greedy maximal-munch without backtracking is exact. -/
def thresholdAt (l : List Char) : Option (String × String) :=
  let (ops, r1) := spanP isOpChar l
  if ops.isEmpty then none
  else
    let r2 := r1.dropWhile isPyWs
    let (num, r3) := spanP isDigitDot r2
    if num.isEmpty then none
    else if (r3.dropWhile isPyWs).isEmpty then some (String.mk ops, String.mk num)
    else none

/-- Python `re.search(r'([><=]+)\s*([\d.]+)\s*$', s)`: the leftmost position
admitting a match to the end of the string. -/
def thresholdSearch : List Char → Option (String × String)
  | [] => none
  | c :: cs =>
    match thresholdAt (c :: cs) with
    | some r => some r
    | none => thresholdSearch cs

/-- `TriggerEvaluator.parse_threshold` (src/server/services/alerting.py lines
56-79).  When the regex matches, only the five listed comparators can yield
`PROBLEM` and everything else falls through to `OK`; when it does not match,
the code falls back to `PROBLEM` iff the value is positive.  `float` failure
on the matched numeric group is a raised `ValueError` (`Except.error`). -/
def parse_threshold (expression : String) (value : Rat) : Except String String :=
  match thresholdSearch expression.data with
  | some (op, thrStr) =>
    match pyFloat thrStr with
    | none => .error "ValueError: could not convert string to float"
    | some threshold =>
      if op = ">" ∧ value > threshold then .ok "PROBLEM"
      else if op = ">=" ∧ value ≥ threshold then .ok "PROBLEM"
      else if op = "<" ∧ value < threshold then .ok "PROBLEM"
      else if op = "<=" ∧ value ≤ threshold then .ok "PROBLEM"
      else if op = "==" ∧ value = threshold then .ok "PROBLEM"
      else .ok "OK"
  | none => .ok (if value > 0 then "PROBLEM" else "OK")

/-- The alert message built at src/server/services/alerting.py line 114. -/
def alert_message (name : String) (new_state : String) (value : Rat) : String :=
  "Trigger '" ++ name ++ "' changed to " ++ new_state ++ ". Value: " ++ toString value

/-- Line 102 of src/server/services/alerting.py: the previously confirmed
state of a trigger, defaulting to `"OK"` when the trigger has never been
evaluated. -/
def TriggerEvaluator.old_state (st : AlertingState) (trigger_id : Nat) : String :=
  (assocGet st.trigger_states trigger_id).getD "OK"

/-- The guard `device_id and maintenance_service.is_device_in_maintenance(...)`
at src/server/services/alerting.py line 90 (a `None` device id skips the
check). -/
def maintenance_suppressed (devices : List DeviceRow)
    (windows : List MaintenanceWindow) (device_id : Option Nat) (now : Int) : Bool :=
  match device_id with
  | some d => is_device_in_maintenance devices windows d now
  | none => false

/-- Lines 100-123 of `TriggerEvaluator.evaluate_trigger`: state comparison and
event creation once a metric value is at hand. -/
def tick_with_value (trigger : ATrigger) (device_id : Option Nat) (value : Rat)
    (st : AlertingState) : Except String (AlertingState × Option AlertEvent) :=
  match parse_threshold trigger.expression value with
  | .error e => .error e
  | .ok new_state =>
    if new_state ≠ TriggerEvaluator.old_state st trigger.id then
      let event : AlertEvent :=
        { trigger_id := trigger.id
          device_id := device_id
          status := new_state
          value := some value
          message := alert_message trigger.name new_state value }
      .ok ({ trigger_states := assocSet st.trigger_states trigger.id new_state
             events := st.events ++ [event] }, some event)
    else .ok (st, none)

/-- `TriggerEvaluator.evaluate_trigger` (src/server/services/alerting.py lines
81-123).  Returns the updated state together with the created alert event, if
any; `Except.error` models an exception escaping the call (caught per trigger
by `evaluate_all_triggers`). -/
def TriggerEvaluator.evaluate_trigger (devices : List DeviceRow)
    (windows : List MaintenanceWindow) (now : Int) (trigger : ATrigger)
    (device_id : Option Nat) (vm_value : Option Rat) (st : AlertingState) :
    Except String (AlertingState × Option AlertEvent) :=
  if maintenance_suppressed devices windows device_id now then .ok (st, none)
  else
    match vm_value with
    | none => .ok (st, none)
    | some value => tick_with_value trigger device_id value st

/-! ## ExpressionEvaluator (src/server/services/expression_evaluator.py)

The expression parser embeds the three `re.match` patterns of
`parse_simple_expression` (lines 59-96).  Each pattern is anchored at the
start of the stripped expression and tolerates trailing characters. -/

/-- `OPERATORS.get` (lines 27-36): the comparator table shared by
`evaluate_simple` and `evaluate_compound`. -/
def OPERATORS_get (op : String) : Option (Rat → Rat → Bool) :=
  if op = ">" then some (fun a b => decide (a > b))
  else if op = "<" then some (fun a b => decide (a < b))
  else if op = ">=" then some (fun a b => decide (a ≥ b))
  else if op = "<=" then some (fun a b => decide (a ≤ b))
  else if op = "=" then some (fun a b => decide (a = b))
  else if op = "==" then some (fun a b => decide (a = b))
  else if op = "!=" then some (fun a b => decide (a ≠ b))
  else if op = "<>" then some (fun a b => decide (a ≠ b))
  else none

/-- Pattern 1, Zabbix style: `\{([^:]+):([^}]+)\}\s*([><=!]+)\s*([\d.]+)`.
Every character class is followed by a class or literal disjoint from it, so
maximal-munch scanning is the exact backtracking semantics. -/
def matchPattern1 (l : List Char) : Option (String × String × String × String) :=
  match l with
  | '{' :: rest =>
    let (g1, r1) := spanP (fun c => c ≠ ':') rest
    if g1.isEmpty then none
    else
      match r1 with
      | ':' :: r2 =>
        let (g2, r3) := spanP (fun c => c ≠ '}') r2
        if g2.isEmpty then none
        else
          match r3 with
          | '}' :: r4 =>
            let r5 := r4.dropWhile isPyWs
            let (op, r6) := spanP isOpBangChar r5
            if op.isEmpty then none
            else
              let r7 := r6.dropWhile isPyWs
              let (num, _) := spanP isDigitDot r7
              if num.isEmpty then none
              else some (String.mk g1, String.mk g2, String.mk op, String.mk num)
          | _ => none
      | _ => none
  | _ => none

/-- Consume an exact literal, returning the remainder. -/
def takeLit : List Char → List Char → Option (List Char)
  | [], rest => some rest
  | _ :: _, [] => none
  | c :: cs, d :: ds => if c = d then takeLit cs ds else none

/-- The part of pattern 2 after the `(\w+_over_time)` group:
`\(([^)]+)\)\s*([><=!]+)\s*([\d.]+)`. -/
def matchP2Rest (l : List Char) : Option (String × String × String) :=
  match l with
  | '(' :: r1 =>
    let (g2, r2) := spanP (fun c => c ≠ ')') r1
    if g2.isEmpty then none
    else
      match r2 with
      | ')' :: r3 =>
        let r4 := r3.dropWhile isPyWs
        let (op, r5) := spanP isOpBangChar r4
        if op.isEmpty then none
        else
          let r6 := r5.dropWhile isPyWs
          let (num, _) := spanP isDigitDot r6
          if num.isEmpty then none
          else some (String.mk g2, String.mk op, String.mk num)
      | _ => none
  | _ => none

/-- Backtracking for the greedy `\w+` before the literal `_over_time` in
pattern 2: try prefix lengths from the maximal word-character run downwards
(the regex engine's preference order) until the rest of the pattern matches. -/
def p2TryLen (l : List Char) : Nat → Option (String × String × String × String)
  | 0 => none
  | k + 1 =>
    match takeLit "_over_time".data (l.drop (k + 1)) with
    | some afterLit =>
      match matchP2Rest afterLit with
      | some (g2, op, num) =>
        some (String.mk (l.take (k + 1) ++ "_over_time".data), g2, op, num)
      | none => p2TryLen l k
    | none => p2TryLen l k

/-- Pattern 2, PromQL style: `(\w+_over_time)\(([^)]+)\)\s*([><=!]+)\s*([\d.]+)`. -/
def matchPattern2 (l : List Char) : Option (String × String × String × String) :=
  p2TryLen l (l.takeWhile isWordChar).length

/-- Pattern 3, bare metric: `([a-zA-Z_][a-zA-Z0-9_]*)\s*([><=!]+)\s*([\d.]+)`. -/
def matchPattern3 (l : List Char) : Option (String × String × String) :=
  match l with
  | c :: rest =>
    if isIdentStart c then
      let (idRest, r1) := spanP isWordChar rest
      let r2 := r1.dropWhile isPyWs
      let (op, r3) := spanP isOpBangChar r2
      if op.isEmpty then none
      else
        let r4 := r3.dropWhile isPyWs
        let (num, _) := spanP isDigitDot r4
        if num.isEmpty then none
        else some (String.mk (c :: idRest), String.mk op, String.mk num)
    else none
  | [] => none

/-- The normalized result of `parse_simple_expression` (lines 81-93): a
4-group match fills `host`, a 3-group match leaves it empty. -/
structure ParsedExpr where
  host : Option String
  metric : String
  operator : String
  threshold : Rat
deriving Repr, DecidableEq

/-- `ExpressionEvaluator.parse_simple_expression` (lines 59-96): the three
patterns are tried in order on the stripped expression; no match is logged
and yields `None` (`.ok none`); `float` failure on the numeric group is a
raised `ValueError` (`.error`). -/
def parse_simple_expression (expression : String) : Except String (Option ParsedExpr) :=
  let l := pyStrip expression
  match matchPattern1 l with
  | some (h, m, op, numStr) =>
    match pyFloat numStr with
    | some t => .ok (some { host := some h, metric := m, operator := op, threshold := t })
    | none => .error "ValueError: could not convert string to float"
  | none =>
    match matchPattern2 l with
    | some (h, m, op, numStr) =>
      match pyFloat numStr with
      | some t => .ok (some { host := some h, metric := m, operator := op, threshold := t })
      | none => .error "ValueError: could not convert string to float"
    | none =>
      match matchPattern3 l with
      | some (m, op, numStr) =>
        match pyFloat numStr with
        | some t => .ok (some { host := none, metric := m, operator := op, threshold := t })
        | none => .error "ValueError: could not convert string to float"
      | none => .ok none

/-- `ExpressionEvaluator.evaluate_simple` (lines 98-121): a failed parse or an
unknown comparator yields `(False, "UNKNOWN")`; otherwise the comparator is
applied to the current value and the threshold. -/
def evaluate_simple (expression : String) (current_value : Rat) :
    Except String (Bool × String) :=
  match parse_simple_expression expression with
  | .error e => .error e
  | .ok none => .ok (false, "UNKNOWN")
  | .ok (some parsed) =>
    match OPERATORS_get parsed.operator with
    | none => .ok (false, "UNKNOWN")
    | some f =>
      let is_problem := f current_value parsed.threshold
      .ok (is_problem, if is_problem then "PROBLEM" else "OK")

/-- One entry of the `conditions` array of a compound expression, with the
dynamic `dict.get` accesses modelled as `Option` fields (`value` is already
coerced to a number as by `float(cond.get('value', 0))`). -/
structure CondRec where
  metric : Option String
  operator : Option String
  value : Option Rat
deriving Repr, DecidableEq

/-- A decoded compound-expression JSON object. -/
structure CompoundExpr where
  operator : Option String
  conditions : Option (List CondRec)
deriving Repr, DecidableEq

/-- One iteration of the conditions loop of `evaluate_compound` (lines
160-175): a missing metric or an unknown comparator contributes `False`. -/
def evalCondition (values : List (String × Rat)) (cond : CondRec) : Bool :=
  let op_str := cond.operator.getD ">"
  let threshold := cond.value.getD 0
  match (match cond.metric with
         | some m => assocGetS values m
         | none => none) with
  | none => false
  | some current =>
    match OPERATORS_get op_str with
    | some f => f current threshold
    | none => false

/-- `ExpressionEvaluator.evaluate_compound` (lines 123-184).  The JSON text
decoding by `json.loads` is abstracted: the argument is the decoded object,
`none` standing for a `JSONDecodeError` (which the code turns into
`(False, "UNKNOWN")`).  An empty conditions list returns `(False, "OK")`
before the logical operator is consulted. -/
def evaluate_compound (expr : Option CompoundExpr) (values : List (String × Rat)) :
    Bool × String :=
  match expr with
  | none => (false, "UNKNOWN")
  | some e =>
    let logical_op := (e.operator.getD "and").toLower
    let conditions := e.conditions.getD []
    if conditions.isEmpty then (false, "OK")
    else
      let results := conditions.map (evalCondition values)
      let is_problem :=
        if logical_op = "and" then results.all id
        else if logical_op = "or" then results.any id
        else results.headD false
      (is_problem, if is_problem then "PROBLEM" else "OK")

/-- A `triggers` row as read by the expression evaluator, including the four
mutable evaluation fields.  `compound_expression` is doubly optional: the
outer layer is column nullability (`None`, falsy at line 308), the inner
layer is the JSON decoding outcome used by `evaluate_compound`. -/
structure ETrigger where
  name : String
  expression : String
  expression_type : String
  compound_expression : Option (Option CompoundExpr)
  duration : Int
  recovery_expression : Option String
  parent_trigger_id : Option Nat
  last_state : Option String
  state_since : Option Int
  last_evaluated_at : Option Int
deriving Repr, DecidableEq

/-- `ExpressionEvaluator.check_dependencies` (lines 227-254): a trigger with a
parent whose `last_state` is `"PROBLEM"` must be suppressed.  The
`parent_trigger` ORM relationship is passed explicitly (`none` when the
foreign key is unset or dangling). -/
def check_dependencies (trigger : ETrigger) (parent : Option ETrigger) : Bool :=
  match trigger.parent_trigger_id with
  | none => true
  | some _ =>
    match parent with
    | none => true
    | some p => !(p.last_state = some "PROBLEM" : Bool)

/-- `ExpressionEvaluator.evaluate_recovery` (lines 256-274): without a
recovery expression the inverse of the main expression decides recovery,
otherwise the recovery expression itself. -/
def evaluate_recovery (trigger : ETrigger) (current_value : Rat) :
    Except String Bool :=
  match trigger.recovery_expression with
  | none =>
    match evaluate_simple trigger.expression current_value with
    | .error e => .error e
    | .ok (is_problem, _) => .ok (!is_problem)
  | some rexpr =>
    match evaluate_simple rexpr current_value with
    | .error e => .error e
    | .ok (is_recovered, _) => .ok is_recovered

/-- `ExpressionEvaluator.check_duration` (lines 186-225).  For a positive
duration the trigger's `last_state`/`state_since` are mutated to track the
raw verdict, and the duration is measured from (the possibly just reset)
`state_since`.  Returns the mutated trigger and the boolean verdict. -/
def check_duration (trigger : ETrigger) (current_state : String) (now : Int) :
    ETrigger × Bool :=
  if trigger.duration ≤ 0 then (trigger, current_state = "PROBLEM")
  else
    let trigger :=
      if trigger.last_state ≠ some current_state then
        { trigger with state_since := some now, last_state := some current_state }
      else trigger
    if current_state ≠ "PROBLEM" then (trigger, false)
    else
      match trigger.state_since with
      | some s => (trigger, decide (now - s ≥ trigger.duration))
      | none => (trigger, false)

/-- The result dict of `ExpressionEvaluator.evaluate_trigger` (lines 294-299). -/
structure EvalResult where
  should_alert : Bool
  state : String
  value : Option Rat
  message : String
deriving Repr, DecidableEq

/-- `current_values.get('value') if current_values else None` (line 319):
Python truthiness makes an empty dict behave like `None`. -/
def pyGetValue (current_values : Option (List (String × Rat))) : Option Rat :=
  match current_values with
  | some vals => if vals.isEmpty then none else assocGetS vals "value"
  | none => none

/-- Lines 339-358 of `evaluate_trigger`: duration gate, state update, and the
final result assembly (reached when no early return fired). -/
def finishEval (trigger : ETrigger) (now : Int) (value : Option Rat)
    (is_problem : Bool) (state : String) : ETrigger × EvalResult :=
  let step :=
    if trigger.duration > 0 then check_duration trigger state now
    else (trigger, is_problem)
  let trigger := { step.1 with last_evaluated_at := some now }
  let trigger :=
    if trigger.last_state ≠ some state then { trigger with state_since := some now }
    else trigger
  let trigger := { trigger with last_state := some state }
  let message :=
    "Trigger " ++ trigger.name ++ ": " ++ state ++
      (match value with
       | some v => " (value: " ++ toString v ++ ")"
       | none => "")
  (trigger, { should_alert := step.2 && (state = "PROBLEM" : Bool),
              state := state, value := value, message := message })

/-- Lines 327-358 of `evaluate_trigger`: the hysteresis/recovery gate followed
by `finishEval`.  The sticky early return at line 337 leaves the trigger
untouched. -/
def afterEval (trigger : ETrigger) (now : Int)
    (current_values : Option (List (String × Rat))) (value : Option Rat)
    (is_problem : Bool) (state : String) : Except String (ETrigger × EvalResult) :=
  if (trigger.last_state = some "PROBLEM" : Bool) && !is_problem then
    match pyGetValue current_values with
    | some rv =>
      match evaluate_recovery trigger rv with
      | .error e => .error e
      | .ok recovered =>
        if recovered then .ok (finishEval trigger now value is_problem state)
        else
          .ok (trigger, { should_alert := false, state := "PROBLEM",
                          value := value, message := "Recovery threshold not met" })
    | none => .ok (finishEval trigger now value is_problem state)
  else .ok (finishEval trigger now value is_problem state)

/-- `ExpressionEvaluator.evaluate_trigger` (lines 276-358).  The dependency
gate comes first; then the compound or simple expression is evaluated (early
returns when values are missing); then hysteresis, duration, and the state
update.  `Except.error` models an exception escaping the call. -/
def ExpressionEvaluator.evaluate_trigger (trigger : ETrigger)
    (parent : Option ETrigger) (now : Int)
    (current_values : Option (List (String × Rat))) :
    Except String (ETrigger × EvalResult) :=
  if !check_dependencies trigger parent then
    .ok (trigger, { should_alert := false, state := "OK", value := none,
                    message := "Suppressed by parent trigger" })
  else if (trigger.expression_type = "compound" : Bool) && trigger.compound_expression.isSome then
    match current_values with
    | some vals =>
      if vals.isEmpty then
        .ok (trigger, { should_alert := false, state := "UNKNOWN", value := none,
                        message := "No values provided for compound expression" })
      else
        let r := evaluate_compound (trigger.compound_expression.getD none) vals
        afterEval trigger now current_values none r.1 r.2
    | none =>
      .ok (trigger, { should_alert := false, state := "UNKNOWN", value := none,
                      message := "No values provided for compound expression" })
  else
    match pyGetValue current_values with
    | none =>
      .ok (trigger, { should_alert := false, state := "UNKNOWN", value := none,
                      message := "No value available" })
    | some v =>
      match evaluate_simple trigger.expression v with
      | .error e => .error e
      | .ok (is_problem, state) => afterEval trigger now current_values (some v) is_problem state

/-! ## TemplateResolver (src/server/services/template_resolver.py) -/

/-- A `triggers` row as carried by a template (the fields read by
`get_effective_config`). -/
structure RTrigger where
  id : Nat
  name : String
  expression : String
  severity : String
  enabled : Bool
deriving Repr, DecidableEq

/-- A `template_items` row (the fields read by the resolver). -/
structure TemplateItem where
  key : String
  name : String
  value_type : String
  units : String
  update_interval : Int
  enabled : Bool
deriving Repr, DecidableEq

/-- A `templates` row with its owned items and triggers. -/
structure Template where
  id : Nat
  name : String
  parent_template_id : Option Nat
  items : List TemplateItem
  triggers : List RTrigger
deriving Repr, DecidableEq

/-- A host group carrying its templates (the `hostgroup.templates`
relationship). -/
structure HostGroupRow where
  id : Nat
  templates : List Template
deriving Repr, DecidableEq

/-- A device with its host-group memberships, as read by
`get_device_templates`. -/
structure DeviceCfg where
  id : Nat
  hostname : String
  host_groups : List HostGroupRow
deriving Repr, DecidableEq

/-- A row of the `device_template` association table. -/
structure Assignment where
  device_id : Nat
  template_id : Nat
  priority : Int
deriving Repr, DecidableEq

/-- Lookup of a template row by id (`db.query(Template).filter(...).first()`
and the ORM `parent_template` relationship resolution). -/
def findTemplate (store : List Template) (tid : Nat) : Option Template :=
  store.find? (fun t => t.id = tid)

/-- The `parent_template` relationship: `none` when `parent_template_id` is
unset or dangling (a dangling parent silently ends the chain, matching the
ORM's `None` relationship). -/
def parent_template (store : List Template) (t : Template) : Option Template :=
  match t.parent_template_id with
  | none => none
  | some pid => findTemplate store pid

/-- `MAX_INHERITANCE_DEPTH` (src/server/services/template_resolver.py line 13). -/
def MAX_INHERITANCE_DEPTH : Nat := 10

/-- The `while` loop of `resolve_template_chain` (lines 41-51).  The loop
needs no fuel in Python because the depth check bounds it; here the fuel
argument only makes the recursion structural, and the depth check (`depth`
starts at 0, fuel at 12, their sum is constant) fires strictly before the
fuel can run out, so the `"fuel"` branch is unreachable from
`resolve_template_chain`. -/
def resolveGo (store : List Template) :
    Nat → Template → List Template → List Nat → Nat → Except String (List Template)
  | 0, _, _, _, _ => .error "fuel"
  | fuel + 1, current, chain, visited, depth =>
    if depth > MAX_INHERITANCE_DEPTH then
      .error "Template inheritance depth exceeds maximum (10)"
    else if visited.contains current.id then
      .error ("Circular template reference detected: " ++ current.name)
    else
      let chain := chain ++ [current]
      let visited := visited ++ [current.id]
      match parent_template store current with
      | none => .ok chain.reverse
      | some p => resolveGo store fuel p chain visited (depth + 1)

/-- `TemplateResolver.resolve_template_chain` (lines 19-54): walk the parent
chain collecting templates, fail on a revisited id or on depth exceeding 10,
and return the chain reversed so the root parent comes first. -/
def resolve_template_chain (store : List Template) (t : Template) :
    Except String (List Template) :=
  resolveGo store 12 t [] [] 0

/-- Specification-side description of the parent walk: the first `n` nodes
reached from `t` by iterating `parent_template`.  Used to characterise when
`resolve_template_chain` fails. -/
def walkNodes (store : List Template) : Nat → Template → List Template
  | 0, _ => []
  | n + 1, t =>
    t :: (match parent_template store t with
          | none => []
          | some p => walkNodes store n p)

/-- Boolean error test on the resolver's result. -/
def isResolveError : Except String (List Template) → Bool
  | .error _ => true
  | .ok _ => false

/-- `TemplateResolver.merge_template_items` (lines 56-75): items of the chain
merged into a key-indexed dict, child (later) entries overwriting parents. -/
def merge_template_items (templates : List Template) : List (String × TemplateItem) :=
  templates.foldl (fun m t => t.items.foldl (fun m item => assocSetS m item.key item) m) []

/-- Stable insertion of `x` after all earlier elements whose key does not
exceed `x`'s (Python's `list.sort` is stable; SQL `ORDER BY priority` tie
order is modelled as stable as well). -/
def insertByPriority {α : Type} (f : α → Int) (x : α) : List α → List α
  | [] => [x]
  | y :: ys => if f y ≤ f x then y :: insertByPriority f x ys else x :: y :: ys

/-- Stable sort by an integer key. -/
def sortByPriority {α : Type} (f : α → Int) (l : List α) : List α :=
  l.foldl (fun acc x => insertByPriority f x acc) []

/-- `TemplateResolver.get_device_templates` (lines 77-121): host-group
templates enter first with priority 0 (deduplicated by id across groups);
direct assignments (ordered by stored priority ascending) then enter with
priority `stored + 100`, displacing any host-group entry with the same id;
finally the pairs are sorted by priority and reduced to templates. -/
def get_device_templates (store : List Template) (assignments : List Assignment)
    (device : DeviceCfg) : List Template :=
  let step1 : List (Template × Int) × List Nat :=
    device.host_groups.foldl (fun acc hg =>
      hg.templates.foldl (fun acc t =>
        if acc.2.contains t.id then acc
        else (acc.1 ++ [(t, 0)], acc.2 ++ [t.id])) acc) ([], [])
  let direct := sortByPriority (fun a => a.priority)
    (assignments.filter (fun a => a.device_id = device.id))
  let step2 : List (Template × Int) × List Nat :=
    direct.foldl (fun acc a =>
      match findTemplate store a.template_id with
      | none => acc
      | some t =>
        let kept := if acc.2.contains t.id then
            acc.1.filter (fun p => !(p.1.id = t.id : Bool))
          else acc.1
        (kept ++ [(t, a.priority + 100)], acc.2 ++ [t.id])) step1
  (sortByPriority (fun p => p.2) step2.1).map (fun p => p.1)

/-- One trigger entry of the effective configuration (lines 167-173). -/
structure TriggerOut where
  id : Nat
  name : String
  expression : String
  severity : String
  template : String
deriving Repr, DecidableEq

/-- One item entry of the effective configuration (lines 181-187). -/
structure ItemOut where
  key : String
  name : String
  value_type : String
  units : String
  update_interval : Int
deriving Repr, DecidableEq

/-- The effective configuration returned by `get_effective_config`. -/
structure EffectiveConfig where
  items : List ItemOut
  templates : List String
  triggers : List TriggerOut
  device_id : Nat
  hostname : String
deriving Repr, DecidableEq

/-- The trigger dict built at lines 167-173. -/
def mkTriggerOut (owner : Template) (tr : RTrigger) : TriggerOut :=
  { id := tr.id, name := tr.name, expression := tr.expression,
    severity := tr.severity, template := owner.name }

/-- The enabled triggers collected from one resolved chain (the nested loop
at lines 164-173), in order. -/
def chainTriggers (chain : List Template) : List TriggerOut :=
  chain.foldl (fun ts t => ts ++ (t.triggers.filter (fun tr => tr.enabled)).map (mkTriggerOut t)) []

/-- The template-name accumulation at line 157: the list comprehension is
evaluated against the pre-extend list, so its membership test does not see
names added by the same chain. -/
def extendNames (names : List String) (chain : List Template) : List String :=
  names ++ (chain.filter (fun t => !(names.contains t.name))).map (fun t => t.name)

/-- The loop body of `get_effective_config` (lines 153-176) threading the
three accumulators (template names, merged items, triggers); a chain that
fails to resolve is logged and skipped. -/
def effectiveStep (store : List Template)
    (acc : List String × List (String × TemplateItem) × List TriggerOut)
    (tmpl : Template) : List String × List (String × TemplateItem) × List TriggerOut :=
  match resolve_template_chain store tmpl with
  | .error _ => acc
  | .ok chain =>
    let names := extendNames acc.1 chain
    let items := (merge_template_items chain).foldl
      (fun m kv => assocSetS m kv.1 kv.2) acc.2.1
    let triggers := acc.2.2 ++ chainTriggers chain
    (names, items, triggers)

/-- `TemplateResolver.get_effective_config` (lines 123-191). -/
def get_effective_config (store : List Template) (assignments : List Assignment)
    (device : DeviceCfg) : EffectiveConfig :=
  let device_templates := get_device_templates store assignments device
  let acc := device_templates.foldl (effectiveStep store) ([], [], [])
  { items := (acc.2.1.filter (fun kv => kv.2.enabled)).map (fun kv =>
      { key := kv.2.key, name := kv.2.name, value_type := kv.2.value_type,
        units := kv.2.units, update_interval := kv.2.update_interval }),
    templates := acc.1,
    triggers := acc.2.2,
    device_id := device.id,
    hostname := device.hostname }

/-! ## Message sanitization (src/server/api/alerts.py) -/

/-- Python `str.split()` with no separator, one character at a time: `acc`
holds the reversed current word. -/
def pySplitWsAux : List Char → List Char → List (List Char)
  | [], acc => if acc.isEmpty then [] else [acc.reverse]
  | c :: cs, acc =>
    if isPyWs c then
      if acc.isEmpty then pySplitWsAux cs []
      else acc.reverse :: pySplitWsAux cs []
    else pySplitWsAux cs (c :: acc)

/-- Python `str.split()` with no separator: maximal runs of
non-whitespace characters. -/
def pySplitWs (l : List Char) : List (List Char) :=
  pySplitWsAux l []

/-- `" ".join(words)`. -/
def joinSpace : List (List Char) → List Char
  | [] => []
  | [w] => w
  | w :: ws => w ++ ' ' :: joinSpace ws

/-- `_sanitize_text` (src/server/api/alerts.py lines 78-81): CR, LF and tab
are replaced by spaces, whitespace runs are collapsed by split/join, and the
result is truncated to `max_len` characters. -/
def sanitize_text (value : String) (max_len : Nat) : String :=
  let text := value.data.map (fun c =>
    if c = '\r' || c = '\n' || c = '\t' then ' ' else c)
  String.mk ((joinSpace (pySplitWs text)).take max_len)

/-- `_sanitize_map` (lines 84-89): each value sanitized, falsy keys skipped. -/
def sanitize_map (data : List (String × String)) (max_len : Nat) :
    List (String × String) :=
  data.foldl (fun safe kv =>
    if kv.1 ≠ "" then assocSetS safe kv.1 (sanitize_text kv.2 max_len) else safe) []

/-- Python truthiness on an optional string: an empty string is falsy. -/
def truthyStr : Option String → Option String
  | some s => if s = "" then none else some s
  | none => none

/-- `"\n".join(parts)`. -/
def joinNl : List String → String
  | [] => ""
  | p :: rest => rest.foldl (fun a b => a ++ "\n" ++ b) p

/-- `_build_message` (src/server/api/alerts.py lines 92-108): the webhook
ingestion path's message, assembled from sanitized labels and annotations and
joined with newline characters. -/
def build_message (labels annotations : List (String × String)) : String :=
  let safe_labels := sanitize_map labels 200
  let safe_annotations := sanitize_map annotations 500
  let summary := truthyStr (assocGetS safe_annotations "summary")
  let description := truthyStr (assocGetS safe_annotations "description")
  let parts : List String :=
    match summary with
    | some s => [s]
    | none => []
  let parts :=
    match description with
    | some d => if summary ≠ some d then parts ++ [d] else parts
    | none => parts
  let parts := if parts.isEmpty then ["Grafana alert received."] else parts
  let parts :=
    match truthyStr (assocGetS safe_labels "alertname") with
    | some an => parts ++ ["Alert: " ++ an]
    | none => parts
  let parts :=
    match truthyStr (assocGetS safe_labels "severity") with
    | some sv => parts ++ ["Severity: " ++ sv]
    | none => parts
  joinNl parts

/-! ## Concrete fixtures used by witnesses and counterexamples -/

/-- The empty evaluator state: no trigger evaluated yet, no events. -/
def emptyAlerting : AlertingState := { trigger_states := [], events := [] }

/-- A plain threshold trigger for the alerting service. -/
def trigCpu : ATrigger := { id := 1, name := "cpu high", expression := "cpu_percent > 90" }

/-- A trigger whose name carries a newline character. -/
def trigNl : ATrigger := { id := 2, name := "disk\nfull", expression := "cpu_percent > 90" }

/-- A device fixture for the maintenance witness. -/
def devsFix : List DeviceRow := [{ id := 5, host_group_ids := [] }]

/-- An active global maintenance window covering time 10. -/
def winsFix : List MaintenanceWindow :=
  [{ active := true, start_time := 0, end_time := 1000, scope_type := "all",
     device_id := none, hostgroup_id := none }]

/-- A baseline expression-evaluator trigger; variants adjust single fields. -/
def baseTrigger : ETrigger :=
  { name := "t", expression := "cpu_percent > 90", expression_type := "simple",
    compound_expression := none, duration := 0, recovery_expression := none,
    parent_trigger_id := none, last_state := none, state_since := none,
    last_evaluated_at := none }

/-- A trigger stuck in PROBLEM whose recovery expression is not yet met. -/
def trigSticky : ETrigger :=
  { baseTrigger with recovery_expression := some "cpu_percent < 10",
                     last_state := some "PROBLEM", state_since := some 0,
                     last_evaluated_at := some 5 }

/-- A duration-gated trigger that has been in raw PROBLEM since time 0. -/
def trigDur : ETrigger :=
  { baseTrigger with duration := 300, last_state := some "PROBLEM",
                     state_since := some 0, last_evaluated_at := some 5 }

/-- An immediate (duration 0) trigger previously OK. -/
def trigImm : ETrigger := { baseTrigger with last_state := some "OK" }

/-- A parent trigger currently in PROBLEM. -/
def trigParentP : ETrigger := { baseTrigger with last_state := some "PROBLEM" }

/-- A child trigger with a dependency on a parent. -/
def trigChild : ETrigger := { baseTrigger with parent_trigger_id := some 9 }

/-- Root template owning one enabled trigger. -/
def tmplP : Template :=
  { id := 1, name := "P", parent_template_id := none, items := [],
    triggers := [{ id := 7, name := "T", expression := "x > 1",
                   severity := "high", enabled := true }] }

/-- First child of `tmplP`. -/
def tmplCa : Template :=
  { id := 2, name := "Ca", parent_template_id := some 1, items := [], triggers := [] }

/-- Second child of `tmplP`. -/
def tmplCb : Template :=
  { id := 3, name := "Cb", parent_template_id := some 1, items := [], triggers := [] }

/-- Template A of the two-cycle A -> B -> A. -/
def tmplA : Template :=
  { id := 1, name := "A", parent_template_id := some 2, items := [], triggers := [] }

/-- Template B of the two-cycle. -/
def tmplB : Template :=
  { id := 2, name := "B", parent_template_id := some 1, items := [], triggers := [] }

/-- A device reaching `tmplP` through two sibling children via one host group. -/
def devTwoChains : DeviceCfg :=
  { id := 10, hostname := "h", host_groups := [{ id := 20, templates := [tmplCa, tmplCb] }] }

/-- The event created by the first PROBLEM tick of `trigCpu` at value 95. -/
def evCpu : AlertEvent :=
  { trigger_id := 1, device_id := none, status := "PROBLEM", value := some 95,
    message := alert_message "cpu high" "PROBLEM" 95 }

/-- The alerting state after that first PROBLEM tick. -/
def stAfterCpu : AlertingState :=
  { trigger_states := [(1, "PROBLEM")], events := [evCpu] }

/-- The event created by the first PROBLEM tick of `trigNl` at value 95: its
message embeds the trigger name verbatim, newline included. -/
def evNl : AlertEvent :=
  { trigger_id := 2, device_id := none, status := "PROBLEM", value := some 95,
    message := alert_message "disk\nfull" "PROBLEM" 95 }

/-- The alerting state after that tick of `trigNl`. -/
def stAfterNl : AlertingState :=
  { trigger_states := [(2, "PROBLEM")], events := [evNl] }

/-- `trigDur` after its duration-satisfied tick at time 400. -/
def trigDurAfter : ETrigger := { trigDur with last_evaluated_at := some 400 }

/-- The result of that duration-satisfied tick. -/
def resDurAfter : EvalResult :=
  { should_alert := true, state := "PROBLEM", value := some 95,
    message := "Trigger t: PROBLEM (value: 95)" }

/-- The enabled trigger owned by `tmplP`. -/
def trigT7 : RTrigger :=
  { id := 7, name := "T", expression := "x > 1", severity := "high", enabled := true }

/-! ## Theorems -/


/-- Reading back a key just written into a Python-dict association list. -/
theorem assocGet_assocSet {α : Type} (m : List (Nat × α)) (k : Nat) (v : α) :
    assocGet (assocSet m k v) k = some v := by
  induction m with
  | nil => simp [assocSet, assocGet]
  | cons p rest ih =>
    by_cases h : p.1 = k
    · simp [assocSet, assocGet, h]
    · simp [assocSet, assocGet, h, ih]

/-- C1: for every trigger and every evaluation tick (one where the metrics
backend returned a value), an Alert Event is created if and only if the tick
is not maintenance-suppressed and the state computed for the tick differs
from the previously confirmed `old_state`; moreover re-running the tick from
the resulting state yields that same state and no second Alert Event, so each
confirmed transition produces exactly one event, never one per tick. -/
theorem alert_event_iff_confirmed_transition
    (devices : List DeviceRow) (windows : List MaintenanceWindow) (now : Int)
    (trigger : ATrigger) (device_id : Option Nat) (v : Rat)
    (st st' : AlertingState) (ev : Option AlertEvent)
    (h : TriggerEvaluator.evaluate_trigger devices windows now trigger device_id
          (some v) st = .ok (st', ev)) :
    (ev.isSome = true ↔
      (maintenance_suppressed devices windows device_id now = false ∧
       ∃ ns, parse_threshold trigger.expression v = .ok ns ∧
         ns ≠ TriggerEvaluator.old_state st trigger.id)) ∧
    TriggerEvaluator.evaluate_trigger devices windows now trigger device_id
      (some v) st' = .ok (st', none) := by
  by_cases hs : maintenance_suppressed devices windows device_id now = true
  · simp only [TriggerEvaluator.evaluate_trigger, hs, if_true] at h
    obtain ⟨rfl, rfl⟩ : st = st' ∧ (none : Option AlertEvent) = ev := by
      simpa using h
    exact ⟨by simp [hs], by simp [TriggerEvaluator.evaluate_trigger, hs]⟩
  · have hsf : maintenance_suppressed devices windows device_id now = false := by
      simpa using hs
    simp only [TriggerEvaluator.evaluate_trigger, hsf, Bool.false_eq_true,
      if_false] at h
    rcases hp : parse_threshold trigger.expression v with e | ns
    · simp only [tick_with_value, hp] at h
      exact Except.noConfusion h
    · simp only [tick_with_value, hp] at h
      by_cases hne : ns ≠ TriggerEvaluator.old_state st trigger.id
      · rw [if_pos hne] at h
        obtain ⟨rfl, rfl⟩ := by simpa using h
        constructor
        · simp only [Option.isSome_some, true_iff]
          exact ⟨hsf, ns, rfl, hne⟩
        · simp [TriggerEvaluator.evaluate_trigger, tick_with_value, hsf, hp,
            TriggerEvaluator.old_state, assocGet_assocSet]
      · rw [if_neg hne] at h
        obtain ⟨rfl, rfl⟩ : st = st' ∧ (none : Option AlertEvent) = ev := by
          simpa using h
        constructor
        · simp only [Option.isSome_none, Bool.false_eq_true, false_iff]
          rintro ⟨-, ns', hp', hne'⟩
          cases hp'
          exact hne hne'
        · simp [TriggerEvaluator.evaluate_trigger, tick_with_value, hsf, hp, hne]

/-- Witness for C1: a concrete first PROBLEM tick creates exactly one event,
and re-evaluating from the resulting state creates none. -/
theorem alert_event_iff_confirmed_transition_witness :
    ((some evCpu : Option AlertEvent).isSome = true ↔
      (maintenance_suppressed [] [] none 0 = false ∧
       ∃ ns, parse_threshold trigCpu.expression 95 = .ok ns ∧
         ns ≠ TriggerEvaluator.old_state emptyAlerting trigCpu.id)) ∧
    TriggerEvaluator.evaluate_trigger [] [] 0 trigCpu none (some 95) stAfterCpu =
      .ok (stAfterCpu, none) :=
  alert_event_iff_confirmed_transition [] [] 0 trigCpu none 95 emptyAlerting
    stAfterCpu (some evCpu) (by decide)

/-- C8 counterexample: for a trigger that has never been evaluated the state
used by the evaluator defaults to `"OK"`, not `"UNKNOWN"` (line 102 of
src/server/services/alerting.py), and the first PROBLEM tick is recorded as a
transition out of `"OK"`. -/
theorem initial_state_not_unknown_counterexample :
    TriggerEvaluator.old_state emptyAlerting trigCpu.id = "OK" ∧
    TriggerEvaluator.old_state emptyAlerting trigCpu.id ≠ "UNKNOWN" ∧
    TriggerEvaluator.evaluate_trigger [] [] 0 trigCpu none (some 95) emptyAlerting =
      .ok (stAfterCpu, some evCpu) :=
  ⟨by decide, by decide, by decide⟩

/-- C8 amended: before the first evaluation the in-memory state defaults to
`"OK"` (the persisted `last_state` column starts unset); a first tick whose
verdict is `OK` therefore emits no Alert Event, and a first tick whose
verdict is `PROBLEM` is treated as a transition out of `"OK"` and emits one
event with status PROBLEM. -/
theorem first_tick_defaults_to_ok
    (devices : List DeviceRow) (windows : List MaintenanceWindow) (now : Int)
    (trigger : ATrigger) (device_id : Option Nat) (v : Rat) (ns : String)
    (st st' : AlertingState) (ev : Option AlertEvent)
    (hnew : assocGet st.trigger_states trigger.id = none)
    (hs : maintenance_suppressed devices windows device_id now = false)
    (hp : parse_threshold trigger.expression v = .ok ns)
    (h : TriggerEvaluator.evaluate_trigger devices windows now trigger device_id
          (some v) st = .ok (st', ev)) :
    TriggerEvaluator.old_state st trigger.id = "OK" ∧
    (ns = "OK" → ev = none) ∧
    (ns = "PROBLEM" → ∃ e, ev = some e ∧ e.status = "PROBLEM") := by
  have hold : TriggerEvaluator.old_state st trigger.id = "OK" := by
    simp [TriggerEvaluator.old_state, hnew]
  simp only [TriggerEvaluator.evaluate_trigger, hs, Bool.false_eq_true, if_false,
    tick_with_value, hp, hold] at h
  refine ⟨hold, ?_, ?_⟩
  · rintro rfl
    rw [if_neg (by simp)] at h
    obtain ⟨-, rfl⟩ : st = st' ∧ (none : Option AlertEvent) = ev := by simpa using h
    rfl
  · rintro rfl
    rw [if_pos (by simp)] at h
    obtain ⟨-, rfl⟩ := by simpa using h
    exact ⟨_, rfl, rfl⟩

/-- Witness for C8 amended: a concrete never-evaluated trigger whose first
tick is PROBLEM emits one PROBLEM event out of the default OK state. -/
theorem first_tick_defaults_to_ok_witness :
    TriggerEvaluator.old_state emptyAlerting trigCpu.id = "OK" ∧
    ("PROBLEM" = "OK" → (some evCpu : Option AlertEvent) = none) ∧
    ("PROBLEM" = "PROBLEM" → ∃ e, (some evCpu : Option AlertEvent) = some e ∧
      e.status = "PROBLEM") :=
  first_tick_defaults_to_ok [] [] 0 trigCpu none 95 "PROBLEM" emptyAlerting
    stAfterCpu (some evCpu) rfl rfl (by decide) (by decide)

/-- C3: a maintenance-suppressed tick of the alerting service leaves the
evaluator state identical and emits no Alert Event regardless of the metric
value; a dependency-suppressed tick of the expression evaluator (parent's
`last_state` is PROBLEM) returns the trigger record unchanged — so
`last_state`, `state_since` and `last_evaluated_at` are identical — with no
alert flagged, regardless of the raw verdict. -/
theorem suppressed_tick_frame :
    (∀ (devices : List DeviceRow) (windows : List MaintenanceWindow) (now : Int)
       (trigger : ATrigger) (d : Nat) (vm : Option Rat) (st : AlertingState),
      is_device_in_maintenance devices windows d now = true →
      TriggerEvaluator.evaluate_trigger devices windows now trigger (some d) vm st =
        .ok (st, none)) ∧
    (∀ (trigger : ETrigger) (parent : Option ETrigger) (now : Int)
       (cv : Option (List (String × Rat))) (p : ETrigger) (pid : Nat),
      trigger.parent_trigger_id = some pid →
      parent = some p →
      p.last_state = some "PROBLEM" →
      ExpressionEvaluator.evaluate_trigger trigger parent now cv =
        .ok (trigger, { should_alert := false, state := "OK", value := none,
                        message := "Suppressed by parent trigger" })) := by
  constructor
  · intro devices windows now trigger d vm st hm
    simp [TriggerEvaluator.evaluate_trigger, maintenance_suppressed, hm]
  · intro trigger parent now cv p pid hpid hpar hls
    have hdep : check_dependencies trigger parent = false := by
      simp [check_dependencies, hpid, hpar, hls]
    simp [ExpressionEvaluator.evaluate_trigger, hdep]

/-- Witness for C3: a device inside an active global maintenance window and a
child trigger with a PROBLEM parent, both at concrete inputs. -/
theorem suppressed_tick_frame_witness :
    TriggerEvaluator.evaluate_trigger devsFix winsFix 10 trigCpu (some 5)
      (some 95) emptyAlerting = .ok (emptyAlerting, none) ∧
    ExpressionEvaluator.evaluate_trigger trigChild (some trigParentP) 100
      (some [("value", 95)]) =
      .ok (trigChild, { should_alert := false, state := "OK", value := none,
                        message := "Suppressed by parent trigger" }) :=
  ⟨suppressed_tick_frame.1 devsFix winsFix 10 trigCpu 5 (some 95) emptyAlerting
      (by decide),
   suppressed_tick_frame.2 trigChild (some trigParentP) 100 (some [("value", 95)])
      trigParentP 9 rfl rfl rfl⟩

/-- C9 counterexample: the internal emitter's Alert Event message is built by
plain string interpolation, so a trigger name containing a newline reaches
the stored event unsanitized; and even the webhook ingestion path's final
message joins its parts with newline characters. -/
theorem sanitization_counterexample :
    TriggerEvaluator.evaluate_trigger [] [] 0 trigNl none (some 95) emptyAlerting =
      .ok (stAfterNl, some evNl) ∧
    evNl.message.data.contains '\n' = true ∧
    (build_message [("alertname", "X")] [("summary", "S")]).data.contains '\n' = true :=
  ⟨by decide, by decide, by decide⟩

/-- The final stage of an evaluation always stamps `last_evaluated_at` with
the current time. -/
theorem finishEval_last_evaluated (trigger : ETrigger) (now : Int)
    (value : Option Rat) (p : Bool) (s : String) :
    (finishEval trigger now value p s).1.last_evaluated_at = some now := by
  unfold finishEval
  split <;> simp <;> split <;> simp

/-- A positive-duration alert verdict from `finishEval` requires the trigger
to have entered raw PROBLEM (recorded in `last_state`/`state_since`) at least
`duration` seconds ago. -/
theorem finishEval_alert_duration (trigger : ETrigger) (now : Int)
    (value : Option Rat) (p : Bool) (s : String)
    (hdur : trigger.duration > 0)
    (h : (finishEval trigger now value p s).2.should_alert = true) :
    ∃ since, trigger.state_since = some since ∧
      trigger.last_state = some "PROBLEM" ∧ now - since ≥ trigger.duration := by
  unfold finishEval at h
  rw [if_pos hdur] at h
  simp only at h
  have h2 : (check_duration trigger s now).2 = true ∧ (s = "PROBLEM" : Bool) = true := by
    simpa using h
  obtain ⟨hcd, hsp⟩ := h2
  have hs : s = "PROBLEM" := by simpa using hsp
  subst hs
  unfold check_duration at hcd
  rw [if_neg (by omega)] at hcd
  by_cases hls : trigger.last_state ≠ some "PROBLEM"
  · rw [if_pos hls] at hcd
    simp only [ne_eq, not_true_eq_false, if_false, reduceIte] at hcd
    have : ¬ (now - now ≥ trigger.duration) := by omega
    simp [this] at hcd
    exact absurd hcd (by omega)
  · rw [if_neg hls] at hcd
    simp only [ne_eq, not_true_eq_false, if_false, reduceIte] at hcd
    rcases hss : trigger.state_since with _ | since
    · rw [hss] at hcd
      simp at hcd
    · rw [hss] at hcd
      simp only [decide_eq_true_eq] at hcd
      exact ⟨since, rfl, by simpa using hls, hcd⟩

/-- Every `afterEval` outcome that flags an alert comes from `finishEval`
applied to the unchanged trigger (the sticky hysteresis return never flags). -/
theorem afterEval_alert_from_finish (trigger : ETrigger) (now : Int)
    (cv : Option (List (String × Rat))) (value : Option Rat) (p : Bool)
    (s : String) (trig' : ETrigger) (res : EvalResult)
    (h : afterEval trigger now cv value p s = .ok (trig', res))
    (hsa : res.should_alert = true) :
    (trig', res) = finishEval trigger now value p s := by
  unfold afterEval at h
  by_cases hst : ((trigger.last_state = some "PROBLEM" : Bool) && !p) = true
  · rw [if_pos hst] at h
    rcases hg : pyGetValue cv with _ | rv
    · simp only [hg] at h
      exact (Except.ok.inj h).symm
    · simp only [hg] at h
      rcases hr : evaluate_recovery trigger rv with e | rec
      · simp only [hr] at h
        exact Except.noConfusion h
      · simp only [hr] at h
        cases rec with
        | true =>
          simp only [if_true] at h
          exact (Except.ok.inj h).symm
        | false =>
          simp only [Bool.false_eq_true, if_false] at h
          obtain ⟨-, rfl⟩ : trigger = trig' ∧
              ({ should_alert := false, state := "PROBLEM", value := value,
                 message := "Recovery threshold not met" } : EvalResult) = res := by
            simpa using h
          simp at hsa
  · rw [if_neg hst] at h
    exact (Except.ok.inj h).symm

/-- Every successful evaluation that flags an alert factors through
`finishEval` on the unchanged input trigger. -/
theorem evaluate_alert_from_finish (trigger : ETrigger) (parent : Option ETrigger)
    (now : Int) (cv : Option (List (String × Rat))) (trig' : ETrigger)
    (res : EvalResult)
    (h : ExpressionEvaluator.evaluate_trigger trigger parent now cv = .ok (trig', res))
    (hsa : res.should_alert = true) :
    ∃ value p s, (trig', res) = finishEval trigger now value p s := by
  unfold ExpressionEvaluator.evaluate_trigger at h
  by_cases hdep : (!check_dependencies trigger parent) = true
  · rw [if_pos hdep] at h
    obtain ⟨-, rfl⟩ : trigger = trig' ∧
        ({ should_alert := false, state := "OK", value := none,
           message := "Suppressed by parent trigger" } : EvalResult) = res := by
      simpa using h
    simp at hsa
  · rw [if_neg hdep] at h
    by_cases hcomp : ((trigger.expression_type = "compound" : Bool) &&
        trigger.compound_expression.isSome) = true
    · rw [if_pos hcomp] at h
      rcases cv with _ | vals
      · obtain ⟨-, rfl⟩ : trigger = trig' ∧
            ({ should_alert := false, state := "UNKNOWN", value := none,
               message := "No values provided for compound expression" } : EvalResult) = res := by
          simpa using h
        simp at hsa
      · by_cases he : vals.isEmpty = true
        · simp only [he, if_true] at h
          obtain ⟨-, rfl⟩ : trigger = trig' ∧
              ({ should_alert := false, state := "UNKNOWN", value := none,
                 message := "No values provided for compound expression" } : EvalResult) = res := by
            simpa using h
          simp at hsa
        · simp only [he, Bool.false_eq_true, if_false] at h
          exact ⟨none, _, _, afterEval_alert_from_finish _ _ _ _ _ _ _ _ h hsa⟩
    · rw [if_neg hcomp] at h
      rcases hv : pyGetValue cv with _ | v
      · simp only [hv] at h
        obtain ⟨-, rfl⟩ : trigger = trig' ∧
            ({ should_alert := false, state := "UNKNOWN", value := none,
               message := "No value available" } : EvalResult) = res := by
          simpa using h
        simp at hsa
      · simp only [hv] at h
        rcases hes : evaluate_simple trigger.expression v with e | ps
        · simp only [hes] at h
          exact Except.noConfusion h
        · simp only [hes] at h
          exact ⟨some v, ps.1, ps.2,
            afterEval_alert_from_finish _ _ _ _ _ _ _ _ h hsa⟩

/-- C2: with duration D > 0 a confirmed-PROBLEM alert verdict is only
produced when the trigger has been in raw PROBLEM (per `last_state`, measured
from `state_since`) for at least D seconds, i.e. `now - state_since >= D`;
and with duration 0 a raw PROBLEM verdict on a dependency-unsuppressed tick
confirms PROBLEM on the same tick. -/
theorem duration_gate_correct :
    (∀ (trigger : ETrigger) (parent : Option ETrigger) (now : Int)
       (cv : Option (List (String × Rat))) (trig' : ETrigger) (res : EvalResult),
      trigger.duration > 0 →
      ExpressionEvaluator.evaluate_trigger trigger parent now cv = .ok (trig', res) →
      res.should_alert = true →
      ∃ since, trigger.state_since = some since ∧
        trigger.last_state = some "PROBLEM" ∧ now - since ≥ trigger.duration) ∧
    (∀ (trigger : ETrigger) (parent : Option ETrigger) (now : Int)
       (cv : Option (List (String × Rat))) (v : Rat),
      trigger.duration = 0 →
      check_dependencies trigger parent = true →
      trigger.expression_type ≠ "compound" →
      pyGetValue cv = some v →
      evaluate_simple trigger.expression v = .ok (true, "PROBLEM") →
      ∃ trig' res,
        ExpressionEvaluator.evaluate_trigger trigger parent now cv = .ok (trig', res) ∧
        res.should_alert = true ∧ res.state = "PROBLEM") := by
  constructor
  · intro trigger parent now cv trig' res hdur h hsa
    obtain ⟨value, p, s, heq⟩ := evaluate_alert_from_finish _ _ _ _ _ _ h hsa
    have hres : res = (finishEval trigger now value p s).2 := congrArg Prod.snd heq
    rw [hres] at hsa
    exact finishEval_alert_duration _ _ _ _ _ hdur hsa
  · intro trigger parent now cv v hdur hdep htype hv hes
    have h1 : (!check_dependencies trigger parent) = false := by simp [hdep]
    have h2 : ((trigger.expression_type = "compound" : Bool) &&
        trigger.compound_expression.isSome) = false := by simp [htype]
    have hc : ExpressionEvaluator.evaluate_trigger trigger parent now cv =
        .ok (finishEval trigger now (some v) true "PROBLEM") := by
      simp [ExpressionEvaluator.evaluate_trigger, afterEval, h1, h2, hv, hes]
    refine ⟨_, _, hc, ?_, ?_⟩
    · simp [finishEval, hdur]
    · simp [finishEval]

/-- Witness for C2: a 300-second trigger in raw PROBLEM since time 0 alerts at
time 400, and an immediate trigger confirms PROBLEM on the same tick. -/
theorem duration_gate_correct_witness :
    (∃ since, trigDur.state_since = some since ∧
      trigDur.last_state = some "PROBLEM" ∧ (400 : Int) - since ≥ trigDur.duration) ∧
    (∃ trig' res,
      ExpressionEvaluator.evaluate_trigger trigImm none 50 (some [("value", 95)]) =
        .ok (trig', res) ∧ res.should_alert = true ∧ res.state = "PROBLEM") :=
  ⟨duration_gate_correct.1 trigDur none 400 (some [("value", 95)])
      trigDurAfter resDurAfter (by decide) (by decide) (by decide),
   duration_gate_correct.2 trigImm none 50 (some [("value", 95)]) 95
      (by decide) (by decide) (by decide) (by decide) (by decide)⟩

/-- C5 counterexample: a non-suppressed tick on which the hysteresis gate
keeps the state sticky at PROBLEM returns before `last_evaluated_at` is
written (line 337 precedes line 346 of expression_evaluator.py), so the field
keeps its old value 5 instead of the tick time 100. -/
theorem sticky_tick_timestamp_counterexample :
    ExpressionEvaluator.evaluate_trigger trigSticky none 100 (some [("value", 50)]) =
      .ok (trigSticky, { should_alert := false, state := "PROBLEM", value := some 50,
                         message := "Recovery threshold not met" }) ∧
    check_dependencies trigSticky none = true ∧
    trigSticky.last_evaluated_at = some 5 ∧
    trigSticky.last_evaluated_at ≠ some 100 :=
  ⟨by decide, by decide, by decide, by decide⟩

/-- C5 amended: `last_evaluated_at` is stamped with the tick time on every
non-suppressed simple-expression tick that reaches the state-update stage —
i.e. a value is available and the hysteresis gate does not return early
(sticky-recovery ticks, and ticks with no value, leave it untouched). -/
theorem last_evaluated_at_on_update_path
    (trigger : ETrigger) (parent : Option ETrigger) (now : Int)
    (cv : Option (List (String × Rat))) (v : Rat) (p : Bool) (s : String)
    (hdep : check_dependencies trigger parent = true)
    (htype : trigger.expression_type ≠ "compound")
    (hv : pyGetValue cv = some v)
    (hes : evaluate_simple trigger.expression v = .ok (p, s))
    (hrec : trigger.last_state = some "PROBLEM" → p = false →
      evaluate_recovery trigger v = .ok true) :
    ∃ trig' res,
      ExpressionEvaluator.evaluate_trigger trigger parent now cv = .ok (trig', res) ∧
      trig'.last_evaluated_at = some now := by
  have h1 : (!check_dependencies trigger parent) = false := by simp [hdep]
  have h2 : ((trigger.expression_type = "compound" : Bool) &&
      trigger.compound_expression.isSome) = false := by simp [htype]
  have hc : ExpressionEvaluator.evaluate_trigger trigger parent now cv =
      afterEval trigger now cv (some v) p s := by
    simp [ExpressionEvaluator.evaluate_trigger, h1, h2, hv, hes]
  by_cases hst : ((trigger.last_state = some "PROBLEM" : Bool) && !p) = true
  · have hls : trigger.last_state = some "PROBLEM" := by
      have := ((Bool.and_eq_true _ _).mp hst).1
      simpa using this
    have hp : p = false := by
      have := ((Bool.and_eq_true _ _).mp hst).2
      simpa using this
    have hr := hrec hls hp
    have hfin : afterEval trigger now cv (some v) p s =
        .ok (finishEval trigger now (some v) p s) := by
      simp [afterEval, hst, hv, hr]
    exact ⟨_, _, by rw [hc, hfin], finishEval_last_evaluated _ _ _ _ _⟩
  · have hfin : afterEval trigger now cv (some v) p s =
        .ok (finishEval trigger now (some v) p s) := by
      simp [afterEval, hst]
    exact ⟨_, _, by rw [hc, hfin], finishEval_last_evaluated _ _ _ _ _⟩

/-- Witness for C5 amended: an immediate trigger previously OK gets its
`last_evaluated_at` stamped with the tick time 50. -/
theorem last_evaluated_at_on_update_path_witness :
    ∃ trig' res,
      ExpressionEvaluator.evaluate_trigger trigImm none 50 (some [("value", 95)]) =
        .ok (trig', res) ∧ trig'.last_evaluated_at = some 50 :=
  last_evaluated_at_on_update_path trigImm none 50 (some [("value", 95)]) 95
    true "PROBLEM" (by decide) (by decide) (by decide) (by decide)
    (fun hls => absurd hls (by decide))

/-- C10: a well-formed compound expression whose conditions list is empty
evaluates to `(False, OK)` before the logical operator is consulted — the
vacuous AND is not treated as true — and a condition whose metric is absent
from the supplied value map evaluates to `False` rather than raising. -/
theorem compound_empty_and_missing_metric :
    (∀ (e : CompoundExpr) (values : List (String × Rat)),
      e.conditions.getD [] = [] →
      evaluate_compound (some e) values = (false, "OK")) ∧
    (∀ (values : List (String × Rat)) (cond : CondRec) (m : String),
      cond.metric = some m → assocGetS values m = none →
      evalCondition values cond = false) := by
  constructor
  · intro e values hc
    simp [evaluate_compound, hc]
  · intro values cond m hm hl
    simp [evalCondition, hm, hl]

/-- Witness for C10: empty conditions under both operators, and a missing
metric in a concrete condition. -/
theorem compound_empty_and_missing_metric_witness :
    evaluate_compound (some { operator := some "and", conditions := some [] })
      [("cpu", 95)] = (false, "OK") ∧
    evaluate_compound (some { operator := some "or", conditions := some [] })
      [("cpu", 95)] = (false, "OK") ∧
    evalCondition [] { metric := some "cpu", operator := some ">", value := some 90 } =
      false :=
  ⟨compound_empty_and_missing_metric.1 { operator := some "and", conditions := some [] }
      [("cpu", 95)] rfl,
   compound_empty_and_missing_metric.1 { operator := some "or", conditions := some [] }
      [("cpu", 95)] rfl,
   compound_empty_and_missing_metric.2 [] { metric := some "cpu", operator := some ">", value := some 90 } "cpu" rfl rfl⟩

/-- No character of a word produced by the splitter is Python whitespace. -/
theorem pySplitWsAux_no_ws (l : List Char) :
    ∀ (acc : List Char), (∀ c ∈ acc, isPyWs c = false) →
      ∀ w ∈ pySplitWsAux l acc, ∀ c ∈ w, isPyWs c = false := by
  induction l with
  | nil =>
    intro acc hacc w hw c hc
    by_cases he : acc.isEmpty
    · simp [pySplitWsAux, he] at hw
    · simp only [pySplitWsAux, he, Bool.false_eq_true, if_false,
        List.mem_singleton] at hw
      subst hw
      exact hacc c (List.mem_reverse.mp hc)
  | cons a as ih =>
    intro acc hacc w hw c hc
    by_cases ha : isPyWs a = true
    · by_cases he : acc.isEmpty
      · simp only [pySplitWsAux, ha, if_true, he] at hw
        exact ih [] (by simp) w hw c hc
      · simp only [pySplitWsAux, ha, if_true, he, Bool.false_eq_true, if_false,
          List.mem_cons] at hw
        rcases hw with rfl | hw
        · exact hacc c (List.mem_reverse.mp hc)
        · exact ih [] (by simp) w hw c hc
    · simp only [pySplitWsAux, ha, Bool.false_eq_true, if_false] at hw
      refine ih (a :: acc) ?_ w hw c hc
      intro d hd
      rcases List.mem_cons.mp hd with rfl | hd
      · simpa using ha
      · exact hacc d hd

/-- A character of a space-joined word list is a space or comes from a word. -/
theorem joinSpace_mem : ∀ (ws : List (List Char)) (c : Char),
    c ∈ joinSpace ws → c = ' ' ∨ ∃ w, w ∈ ws ∧ c ∈ w
  | [], c, h => by simp [joinSpace] at h
  | [w], c, h => Or.inr ⟨w, by simp, by simpa [joinSpace] using h⟩
  | w :: w2 :: ws, c, h => by
    simp only [joinSpace, List.mem_append, List.mem_cons] at h
    rcases h with h | h | h
    · exact Or.inr ⟨w, by simp, h⟩
    · exact Or.inl h
    · rcases joinSpace_mem (w2 :: ws) c h with h' | ⟨w', hw', hc'⟩
      · exact Or.inl h'
      · exact Or.inr ⟨w', by simp [List.mem_cons.mp hw'], hc'⟩

/-- C9 amended: the sanitization rule actually shared is `_sanitize_text`,
applied per label/annotation by the webhook ingestion path only: its output
is capped at `max_len` characters and contains no tab, newline, carriage
return, vertical tab, or form feed (runs of whitespace become single spaces);
the internal emitter's message applies no such rule (see the counterexample). -/
theorem sanitize_text_clean (value : String) (max_len : Nat) :
    (sanitize_text value max_len).data.length ≤ max_len ∧
    ∀ c ∈ (sanitize_text value max_len).data,
      (c = '\t' ∨ c = '\n' ∨ c = '\r' ∨ c = '\x0b' ∨ c = '\x0c') → False := by
  constructor
  · simp only [sanitize_text]
    exact List.length_take_le max_len _
  · intro c hc hbad
    have hc' : c ∈ joinSpace (pySplitWs (value.data.map (fun c =>
        if c = '\r' || c = '\n' || c = '\t' then ' ' else c))) := by
      have : (sanitize_text value max_len).data = (joinSpace (pySplitWs
          (value.data.map (fun c =>
            if c = '\r' || c = '\n' || c = '\t' then ' ' else c)))).take max_len := rfl
      rw [this] at hc
      exact List.take_subset _ _ hc
    have hcws : isPyWs c = true := by
      rcases hbad with rfl | rfl | rfl | rfl | rfl <;> decide
    rcases joinSpace_mem _ _ hc' with rfl | ⟨w, hw, hcw⟩
    · rcases hbad with h | h | h | h | h <;> exact absurd h (by decide)
    · have := pySplitWsAux_no_ws _ [] (by simp) w hw c hcw
      rw [hcws] at this
      cases this

/-- Witness for C9 amended: concrete sanitized text is capped and free of the
collapsed control characters. -/
theorem sanitize_text_clean_witness :
    (sanitize_text "ab\r\ncd\te" 100).data.length ≤ 100 ∧
    (('\n' ∈ (sanitize_text "ab\r\ncd\te" 100).data) → False) :=
  ⟨(sanitize_text_clean "ab\r\ncd\te" 100).1,
   fun h => (sanitize_text_clean "ab\r\ncd\te" 100).2 '\n' h (by decide)⟩

/-- The loop of `resolve_template_chain`, characterised against the plain
parent walk `walkNodes`: with the invariant `visited = chain.map id`,
`depth = chain.length` and `chain.length + fuel = 12`, the loop fails exactly
when the remaining walk would use up all the remaining depth or repeat an id,
and otherwise returns the reversed accumulated walk. -/
theorem resolveGo_spec (store : List Template) :
    ∀ (fuel : Nat) (current : Template) (chain : List Template) (visited : List Nat),
      visited = chain.map Template.id →
      (chain.map Template.id).Nodup →
      chain.length + fuel = 12 →
      1 ≤ fuel →
      (∀ ch, resolveGo store fuel current chain visited chain.length = .ok ch →
        ch = (chain ++ walkNodes store fuel current).reverse ∧
        (walkNodes store fuel current).length < fuel ∧
        ((chain ++ walkNodes store fuel current).map Template.id).Nodup) ∧
      (isResolveError (resolveGo store fuel current chain visited chain.length) = true ↔
        ((walkNodes store fuel current).length = fuel ∨
         ¬ ((chain ++ walkNodes store fuel current).map Template.id).Nodup)) := by
  intro fuel
  induction fuel with
  | zero => intro current chain visited _ _ _ hf; omega
  | succ n ih =>
    intro current chain visited hvis hnd hlen _
    by_cases hdepth : chain.length > MAX_INHERITANCE_DEPTH
    · have hn : n = 0 := by
        have : MAX_INHERITANCE_DEPTH = 10 := rfl
        omega
      subst hn
      constructor
      · intro ch hch
        rw [resolveGo, if_pos hdepth] at hch
        exact Except.noConfusion hch
      · rw [resolveGo, if_pos hdepth]
        simp only [isResolveError, true_iff]
        left
        rcases hpar : parent_template store current with _ | p <;>
          simp [walkNodes, hpar]
    · have hmax : MAX_INHERITANCE_DEPTH = 10 := rfl
      by_cases hmem : visited.contains current.id
      · have hmem' : current.id ∈ chain.map Template.id := by
          rw [← hvis]
          simpa using hmem
        constructor
        · intro ch hch
          rw [resolveGo, if_neg hdepth, if_pos hmem] at hch
          exact Except.noConfusion hch
        · rw [resolveGo, if_neg hdepth, if_pos hmem]
          simp only [isResolveError, true_iff]
          right
          intro hcontra
          rw [List.map_append] at hcontra
          rcases List.nodup_append.mp hcontra with ⟨-, -, hdisj⟩
          refine hdisj hmem' ?_
          rcases hpar : parent_template store current with _ | p <;>
            simp [walkNodes, hpar]
      · have hfresh : current.id ∉ chain.map Template.id := by
          rw [← hvis]
          intro hcontra
          exact hmem (by simpa using hcontra)
        have hnd' : ((chain ++ [current]).map Template.id).Nodup := by
          rw [List.map_append]
          exact List.Nodup.append hnd (by simp) (by simpa [List.disjoint_singleton] using hfresh)
        rcases hpar : parent_template store current with _ | p
        · -- walk ends here
          have hwalk : walkNodes store (n + 1) current = [current] := by
            simp [walkNodes, hpar]
          constructor
          · intro ch hch
            rw [resolveGo, if_neg hdepth, if_neg hmem] at hch
            simp only [hpar] at hch
            refine ⟨?_, ?_, ?_⟩
            · rw [hwalk]
              exact (Except.ok.inj hch).symm
            · rw [hwalk]
              simp
              omega
            · rw [hwalk]
              exact hnd'
          · rw [resolveGo, if_neg hdepth, if_neg hmem]
            simp only [hpar, isResolveError, Bool.false_eq_true, false_iff]
            rw [hwalk]
            push_neg
            refine ⟨?_, hnd'⟩
            simp
            omega
        · -- recurse on the parent
          have hstep : resolveGo store (n + 1) current chain visited chain.length =
              resolveGo store n p (chain ++ [current])
                (visited ++ [current.id]) ((chain ++ [current]).length) := by
            rw [resolveGo, if_neg hdepth, if_neg hmem]
            simp [hpar, List.length_append]
          have hwalk : walkNodes store (n + 1) current =
              current :: walkNodes store n p := by
            simp [walkNodes, hpar]
          have hvis' : visited ++ [current.id] = (chain ++ [current]).map Template.id := by
            rw [List.map_append, hvis]
            rfl
          have hlen' : (chain ++ [current]).length + n = 12 := by
            simp [List.length_append]
            omega
          have hn1 : 1 ≤ n := by
            have : MAX_INHERITANCE_DEPTH = 10 := rfl
            omega
          obtain ⟨ihok, ihiff⟩ := ih p (chain ++ [current]) (visited ++ [current.id])
            hvis' hnd' hlen' hn1
          have harr : (chain ++ [current]) ++ walkNodes store n p =
              chain ++ walkNodes store (n + 1) current := by
            rw [hwalk, List.append_assoc]
            rfl
          constructor
          · intro ch hch
            rw [hstep] at hch
            obtain ⟨h1, h2, h3⟩ := ihok ch hch
            refine ⟨?_, ?_, ?_⟩
            · rw [← harr]
              exact h1
            · rw [hwalk]
              simpa using h2
            · rw [← harr]
              exact h3
          · rw [hstep]
            rw [ihiff, ← harr, hwalk]
            constructor
            · rintro (h | h)
              · left
                simp [h]
              · right
                exact h
            · rintro (h | h)
              · left
                simp at h
                exact h
              · right
                exact h

/-- C6: `resolve_template_chain` is total (it is a Lean function, bounded by
the depth counter) and fails exactly when the parent walk from the template
revisits an already-visited template id or runs past the fixed maximum depth
of 10 (the walk would reach a 12th node); on success it returns the parent
walk reversed — root first, the given template last — with at most 11
distinct templates. -/
theorem resolve_chain_characterization (store : List Template) (t : Template) :
    (∀ chain, resolve_template_chain store t = .ok chain →
      chain = (walkNodes store 12 t).reverse ∧
      chain.getLast? = some t ∧
      chain.length ≤ 11 ∧
      (chain.map Template.id).Nodup) ∧
    (isResolveError (resolve_template_chain store t) = true ↔
      ((walkNodes store 12 t).length = 12 ∨
       ¬ ((walkNodes store 12 t).map Template.id).Nodup)) := by
  obtain ⟨hok, hiff⟩ := resolveGo_spec store 12 t [] [] rfl (by simp) (by simp) (by omega)
  constructor
  · intro chain hchain
    obtain ⟨h1, h2, h3⟩ := hok chain hchain
    simp only [List.nil_append] at h1 h3
    refine ⟨h1, ?_, ?_, ?_⟩
    · rw [h1, List.getLast?_reverse]
      rcases hpar : parent_template store t with _ | p <;> simp [walkNodes, hpar]
    · rw [h1]
      simp only [List.length_reverse]
      omega
    · rw [h1]
      simpa using h3
  · simpa using hiff

/-- Witness for C6: the two-template cycle A -> B -> A fails, and a plain
parent-child pair resolves to the chain root first, given template last. -/
theorem resolve_chain_characterization_witness :
    isResolveError (resolve_template_chain [tmplA, tmplB] tmplA) = true ∧
    ([tmplP, tmplCa] = (walkNodes [tmplP, tmplCa] 12 tmplCa).reverse ∧
     [tmplP, tmplCa].getLast? = some tmplCa ∧
     [tmplP, tmplCa].length ≤ 11 ∧
     ([tmplP, tmplCa].map Template.id).Nodup) :=
  ⟨(resolve_chain_characterization [tmplA, tmplB] tmplA).2.mpr (Or.inl (by decide)),
   (resolve_chain_characterization [tmplP, tmplCa] tmplCa).1 [tmplP, tmplCa] (by decide)⟩

/-- Splitting a left fold that only appends to its accumulator. -/
theorem foldl_append_init {α β : Type} (f : β → List α) :
    ∀ (l : List β) (init : List α),
      l.foldl (fun acc b => acc ++ f b) init =
        init ++ l.foldl (fun acc b => acc ++ f b) []
  | [], init => by simp
  | b :: bs, init => by
    rw [List.foldl_cons, foldl_append_init f bs (init ++ f b),
      List.foldl_cons, List.nil_append, foldl_append_init f bs (f b),
      List.append_assoc]

/-- Every enabled trigger of a chain member is collected by `chainTriggers`. -/
theorem mem_chainTriggers (chain : List Template) (t : Template) (tr : RTrigger)
    (ht : t ∈ chain) (htr : tr ∈ t.triggers) (he : tr.enabled = true) :
    mkTriggerOut t tr ∈ chainTriggers chain := by
  induction chain with
  | nil => cases ht
  | cons hd tl ih =>
    unfold chainTriggers
    rw [List.foldl_cons, List.nil_append,
      foldl_append_init (fun t => (t.triggers.filter (fun tr => tr.enabled)).map
        (mkTriggerOut t)) tl _]
    rcases List.mem_cons.mp ht with rfl | hmem
    · refine List.mem_append_left _ ?_
      exact List.mem_map_of_mem _ (List.mem_filter.mpr ⟨htr, he⟩)
    · exact List.mem_append_right _ (ih hmem)

/-- The trigger accumulator of the effective-config fold only grows. -/
theorem effective_triggers_mono (store : List Template) :
    ∀ (l : List Template)
      (acc : List String × List (String × TemplateItem) × List TriggerOut)
      (x : TriggerOut), x ∈ acc.2.2 →
      x ∈ (l.foldl (effectiveStep store) acc).2.2
  | [], _, _, hx => hx
  | hd :: tl, acc, x, hx => by
    rw [List.foldl_cons]
    refine effective_triggers_mono store tl _ x ?_
    unfold effectiveStep
    rcases resolve_template_chain store hd with e | chain
    · exact hx
    · exact List.mem_append_left _ hx

/-- Membership in the trigger accumulator after folding over the applicable
templates. -/
theorem mem_effective_triggers (store : List Template) :
    ∀ (tmpls : List Template)
      (acc : List String × List (String × TemplateItem) × List TriggerOut)
      (tmpl : Template) (chain : List Template) (x : TriggerOut),
      tmpl ∈ tmpls →
      resolve_template_chain store tmpl = .ok chain →
      x ∈ chainTriggers chain →
      x ∈ (tmpls.foldl (effectiveStep store) acc).2.2
  | [], _, _, _, _, hmem, _, _ => by cases hmem
  | hd :: tl, acc, tmpl, chain, x, hmem, hres, hx => by
    rw [List.foldl_cons]
    rcases List.mem_cons.mp hmem with rfl | hmem'
    · refine effective_triggers_mono store tl _ x ?_
      unfold effectiveStep
      rw [hres]
      exact List.mem_append_right _ hx
    · exact mem_effective_triggers store tl _ tmpl chain x hmem' hres hx

/-- C7 amended: every enabled trigger reachable from a successfully resolved
chain of an applicable template is included in the effective configuration;
uniqueness of a trigger id does NOT hold (see the counterexample) — the same
trigger appears once per applicable-template chain that reaches it. -/
theorem effective_config_includes_enabled_triggers
    (store : List Template) (assignments : List Assignment) (device : DeviceCfg)
    (tmpl : Template) (chain : List Template) (t : Template) (tr : RTrigger)
    (h1 : tmpl ∈ get_device_templates store assignments device)
    (h2 : resolve_template_chain store tmpl = .ok chain)
    (h3 : t ∈ chain) (h4 : tr ∈ t.triggers) (h5 : tr.enabled = true) :
    mkTriggerOut t tr ∈ (get_effective_config store assignments device).triggers := by
  unfold get_effective_config
  exact mem_effective_triggers store _ ([], [], []) tmpl chain _ h1 h2
    (mem_chainTriggers chain t tr h3 h4 h5)

/-- C7 counterexample: with templates Ca and Cb both inheriting from P, a
device carrying both via one host group receives P's single enabled trigger
(id 7) twice in its effective configuration — trigger ids are not
deduplicated. -/
theorem trigger_dedup_counterexample :
    ((get_effective_config [tmplP, tmplCa, tmplCb] [] devTwoChains).triggers.filter
      (fun r => r.id = 7)).length = 2 := by
  decide

/-- Witness for C7 amended: the trigger of the root template is included via
the first child's chain. -/
theorem effective_config_includes_enabled_triggers_witness :
    mkTriggerOut tmplP trigT7 ∈
      (get_effective_config [tmplP, tmplCa, tmplCb] [] devTwoChains).triggers :=
  effective_config_includes_enabled_triggers [tmplP, tmplCa, tmplCb] [] devTwoChains
    tmplCa [tmplP, tmplCa] tmplP trigT7 (by decide) (by decide) (by decide)
    (by decide) (by decide)
